import Mathlib

/-!
Verification of the Enable Banking demonstration client
(`enable_banking_service.py`) and its interactive redirect flow
(`streamlit_app.py`), as a shallow embedding in Lean 4.

Conventions used throughout:
* Python optional strings (query parameters, `st.session_state.get` results)
  become `Option String`; Python truthiness of such a value (`if code:`) is
  `pyTruthy` below (`None` and `""` are falsy, every other string truthy).
* Instants are natural numbers of microseconds since the Unix epoch
  (UTC); `datetime.now(timezone.utc)` is a parameter `now`, and
  `timedelta(days=90)` is `90 * 86400 * 1000000` microseconds.
* The network is an oracle: a function from the request data the code
  actually varies (the continuation key for pagination, or nothing) to the
  response the remote server produces.
-/

namespace Gestio

/-- Python truthiness of an optional string: `None` and the empty string are
falsy, any other string is truthy. -/
def pyTruthy : Option String → Bool
  | none => false
  | some s => !s.isEmpty

/-! ## Interactive flow controller: callback handling

`streamlit_app.py` lines 73-92. The per-session `st.session_state` entries
touched by the callback handler are `oauth_state` (the nonce stored when the
consent link was created), `last_code` (duplicate-callback suppression) and
`session` (the exchanged auth session). The auth-session payload returned by
`exchange_code` is opaque to the flow logic, so it is modelled as a plain
string produced by the `exchange_code` oracle. -/

/-- The flow controller's per-session state (`st.session_state` entries used
by the callback handler). -/
structure FlowState where
  oauth_state : Option String
  last_code : Option String
  session : Option String
deriving DecidableEq

/-- What the callback handler did on one script run. `rejected` is the
`st.error`/`st.stop` halt; `noCode` covers a missing or empty `code`
query parameter; `duplicate` is the suppressed re-delivery of the
last-processed code. -/
inductive CallbackOutcome where
  | noCode
  | duplicate
  | rejected
  | exchanged
deriving DecidableEq

/-- Result of one run of the callback handler: the updated session state,
the outcome, and the codes passed to `service.exchange_code` (in order). -/
structure CallbackResult where
  finalState : FlowState
  outcome : CallbackOutcome
  exchanged_codes : List String
deriving DecidableEq

/-- `streamlit_app.py` lines 82-92:

```
if code:
    last_code = st.session_state.get("last_code")
    if last_code != code:
        expected_state = st.session_state.get("oauth_state")
        if expected_state and state and state != expected_state:
            st.error("State mismatch. Do not continue.")
            st.stop()
        session = service.exchange_code(code)
        st.session_state["session"] = session
        st.session_state["last_code"] = code
```

`code` and `state` are the (list-normalised, lines 74-80) query parameters.
Python `last_code != code` compares `None`-or-string against a string, so it
is `fs.last_code ≠ some c`. -/
def handle_callback (fs : FlowState) (code state : Option String)
    (exchange_code : String → String) : CallbackResult :=
  match code with
  | none => ⟨fs, .noCode, []⟩
  | some c =>
    if c.isEmpty then ⟨fs, .noCode, []⟩
    else if fs.last_code = some c then ⟨fs, .duplicate, []⟩
    else if pyTruthy fs.oauth_state && pyTruthy state && state != fs.oauth_state then
      ⟨fs, .rejected, []⟩
    else
      ⟨{ fs with session := some (exchange_code c), last_code := some c },
        .exchanged, [c]⟩

/-! ## Banking client: transaction pagination

`enable_banking_service.py` lines 123-140. `get_transactions` performs one
HTTP round trip; for the pagination claims it is abstracted as an oracle from
the continuation key the code sends (none on the first request) to the parsed
page. A page is the `transactions` list plus the optional `continuation_key`
of the response body. -/

/-- One page of the transactions endpoint: `data.get("transactions", [])`
and `data.get("continuation_key")`. -/
structure TransactionPage (α : Type) where
  transactions : List α
  continuation_key : Option String
deriving DecidableEq

/-- The `for _ in range(max_pages)` loop of `fetch_all_transactions`,
with the remaining iteration budget as fuel. Returns the accumulated
items (`all_items`) together with the number of `get_transactions`
calls performed. Python `if not continuation_key: break` is the
`pyTruthy` test. -/
def fetchPages {α : Type} (get_transactions : Option String → TransactionPage α) :
    Nat → Option String → List α × Nat
  | 0, _ => ([], 0)
  | fuel + 1, key =>
    let data := get_transactions key
    if pyTruthy data.continuation_key then
      let rest := fetchPages get_transactions fuel data.continuation_key
      (data.transactions ++ rest.1, rest.2 + 1)
    else
      (data.transactions, 1)

/-- `enable_banking_service.py` lines 123-140: `fetch_all_transactions`.
The account id and date filters are passed through unchanged to every page
request, so the page oracle is parametrised by the account id and has the
filters baked in; the loop starts with no continuation key. -/
def fetch_all_transactions {α : Type}
    (get_transactions : String → Option String → TransactionPage α)
    (account_id : String) (max_pages : Nat := 20) : List α × Nat :=
  fetchPages (get_transactions account_id) max_pages none

/-- Concrete server for the three-page scenario: 3 pages of 2 items each,
no continuation key on the third. -/
def threePageServer : Option String → TransactionPage String
  | none => ⟨["t1", "t2"], some "k1"⟩
  | some "k1" => ⟨["t3", "t4"], some "k2"⟩
  | some "k2" => ⟨["t5", "t6"], none⟩
  | some _ => ⟨[], none⟩

/-- Concrete server that always returns a (truthy) continuation key; the
items of each page are the page's own key so that distinct pages are
distinguishable. -/
def alwaysContinuingServer : Option String → TransactionPage String :=
  fun key => ⟨[key.getD "start"], some (key.getD "start" ++ "+")⟩

/-- The loop performs at most as many page requests as it has fuel. -/
theorem fetchPages_count_le {α : Type}
    (gt : Option String → TransactionPage α) :
    ∀ (fuel : Nat) (key : Option String), (fetchPages gt fuel key).2 ≤ fuel := by
  intro fuel
  induction fuel with
  | zero => intro key; simp [fetchPages]
  | succ n ih =>
    intro key
    simp only [fetchPages]
    by_cases h : pyTruthy (gt key).continuation_key
    · simpa [h] using Nat.succ_le_succ (ih (gt key).continuation_key)
    · simp [h]

/-! ## Timestamps and `_rfc3339_utc`

`enable_banking_service.py` lines 12-13:

```
def _rfc3339_utc(dt: datetime) -> str:
    return dt.astimezone(timezone.utc).replace(microsecond=0).isoformat().replace("+00:00", "Z")
```

An aware UTC instant is a natural number of microseconds since the Unix
epoch. `astimezone(timezone.utc)` does not move the instant;
`replace(microsecond=0)` truncates to whole seconds (`t / 1000000`);
`isoformat()` on a whole-second aware UTC datetime prints
`YYYY-MM-DDTHH:MM:SS+00:00`, and the final `.replace` rewrites the single
occurrence of `+00:00` (the offset suffix; the character `+` occurs nowhere
else in that string) into `Z`, i.e. the result is the naive part with `Z`
appended. -/

/-- Convert a count of days since 1970-01-01 to a Gregorian civil date
(year, month, day), by the standard era/day-of-era decomposition. -/
def civilFromDays (z : Nat) : Nat × Nat × Nat :=
  let z' := z + 719468
  let era := z' / 146097
  let doe := z' % 146097
  let yoe := (doe - doe / 1460 + doe / 36524 - doe / 146096) / 365
  let y := yoe + era * 400
  let doy := doe - (365 * yoe + yoe / 4 - yoe / 100)
  let mp := (5 * doy + 2) / 153
  let d := doy - (153 * mp + 2) / 5 + 1
  let m := if mp < 10 then mp + 3 else mp - 9
  (if m ≤ 2 then y + 1 else y, m, d)

/-- Zero-pad a number to two decimal digits. -/
def pad2 (n : Nat) : String :=
  if n < 10 then "0" ++ Nat.repr n else Nat.repr n

/-- Zero-pad a number to four decimal digits. -/
def pad4 (n : Nat) : String :=
  if n < 10 then "000" ++ Nat.repr n
  else if n < 100 then "00" ++ Nat.repr n
  else if n < 1000 then "0" ++ Nat.repr n
  else Nat.repr n

/-- Lay out date and time components as `YYYY-MM-DDTHH:MM:SS`. -/
def isoCore (y mo da hh mi ss : Nat) : String :=
  pad4 y ++ "-" ++ pad2 mo ++ "-" ++ pad2 da ++ "T" ++
  pad2 hh ++ ":" ++ pad2 mi ++ ":" ++ pad2 ss

/-- `datetime.isoformat()` of a whole-second UTC instant (`s` seconds since
the Unix epoch), naive part only: `YYYY-MM-DDTHH:MM:SS`. -/
def isoformatUtc (s : Nat) : String :=
  isoCore (civilFromDays (s / 86400)).1 (civilFromDays (s / 86400)).2.1
    (civilFromDays (s / 86400)).2.2 (s / 3600 % 24) (s / 60 % 60) (s % 60)

/-- `_rfc3339_utc` on an instant of `t` microseconds since the Unix epoch:
truncate to seconds, format, offset `+00:00` rewritten to `Z`. -/
def _rfc3339_utc (t : Nat) : String :=
  isoformatUtc (t / 1000000) ++ "Z"

/-- The characters that can appear in an `_rfc3339_utc` result. -/
def rfcCharOk (c : Char) : Bool :=
  c.isDigit || c == '-' || c == ':' || c == 'T' || c == 'Z'

/-! ## `start_auth` and the default access grant

`enable_banking_service.py` lines 65-95. The outbound JSON payload is
modelled structurally; `auth_method` and `state` are included only when
truthy (`if auth_method:` / `if state:`). -/

/-- The `access` object of the `/auth` payload. -/
structure Access where
  balances : Bool
  transactions : Bool
  valid_until : String
deriving DecidableEq

/-- The `/auth` request payload built by `start_auth`. -/
structure AuthPayload where
  aspsp_name : String
  country : String
  redirect_url : String
  psu_type : String
  access : Access
  auth_method : Option String
  state : Option String
deriving DecidableEq

/-- `enable_banking_service.py` lines 65-95: the payload `start_auth` sends.
`now` is the value of `datetime.now(timezone.utc)` in microseconds since the
Unix epoch; when `access` is `None` the default grant uses
`now + timedelta(days=90)`. -/
def start_auth (aspsp_name country redirect_url : String)
    (access : Option Access) (psu_type : String)
    (auth_method state : Option String) (now : Nat) : AuthPayload :=
  { aspsp_name := aspsp_name
    country := country
    redirect_url := redirect_url
    psu_type := psu_type
    access :=
      match access with
      | some a => a
      | none => ⟨true, true, _rfc3339_utc (now + 90 * 86400 * 1000000)⟩
    auth_method := if pyTruthy auth_method then auth_method else none
    state := if pyTruthy state then state else none }

/-- 2026-01-01T00:00:00Z in microseconds since the Unix epoch: 56 years of
365 days plus 14 leap days give 20454 days. -/
def fixedClock2026 : Nat := 20454 * 86400 * 1000000

/-! ## JWT minting (`_generate_jwt`, lines 28-37) -/

/-- The JWT claim set built by `_generate_jwt`. -/
structure JwtPayload where
  iss : String
  aud : String
  iat : Nat
  exp : Nat
deriving DecidableEq

/-- The JWT header built by `_generate_jwt`. -/
structure JwtHeader where
  typ : String
  kid : String
deriving DecidableEq

/-- The data `jwt.encode` signs: claims, header, signing key, algorithm.
The base64/RSA encoding itself is cryptographic and outside the model; the
token is represented by the exact data that determines it. -/
structure SignedJwt where
  payload : JwtPayload
  header : JwtHeader
  signing_key : String
  algorithm : String
deriving DecidableEq

/-- `enable_banking_service.py` lines 28-37: `_generate_jwt`, with `now` the
value of `int(time.time())` at the call. -/
def _generate_jwt (application_id private_key_pem : String) (now : Nat) : SignedJwt :=
  { payload :=
      { iss := "enablebanking.com"
        aud := "api.enablebanking.com"
        iat := now
        exp := now + 3600 }
    header := { typ := "JWT", kid := application_id }
    signing_key := private_key_pem
    algorithm := "RS256" }

/-- A header value: either the bearer token minted for this call or a
literal string. -/
inductive HeaderValue where
  | bearer (token : SignedJwt)
  | literal (s : String)
deriving DecidableEq

/-- `enable_banking_service.py` lines 39-43: `_headers` mints a fresh token
(at the calling instant `now`) on every invocation — nothing is cached. -/
def _headers (application_id private_key_pem : String) (now : Nat) :
    List (String × HeaderValue) :=
  [("Authorization", .bearer (_generate_jwt application_id private_key_pem now)),
   ("Content-Type", .literal "application/json")]

/-! ## `get_transactions` request building (lines 105-121) -/

/-- `enable_banking_service.py` lines 112-118: the query-parameter dict;
each optional filter is added only when truthy. -/
def get_transactions_params (date_from date_to continuation_key : Option String) :
    List (String × String) :=
  (if pyTruthy date_from then [("date_from", date_from.getD "")] else []) ++
  (if pyTruthy date_to then [("date_to", date_to.getD "")] else []) ++
  (if pyTruthy continuation_key then [("continuation_key", continuation_key.getD "")] else [])

/-- `enable_banking_service.py` line 120: path and query parameters of the
single-page request. -/
def get_transactions_request (account_id : String)
    (date_from date_to continuation_key : Option String) :
    String × List (String × String) :=
  ("/accounts/" ++ account_id ++ "/transactions",
   get_transactions_params date_from date_to continuation_key)

/-! ## Request dispatch and error propagation (`_request`, lines 45-59)

The remote response is an oracle input. `response.raise_for_status()` (the
`requests` library) raises `HTTPError` exactly when `400 ≤ status < 600`;
on that exception the code logs method, URL and raw body and re-raises; a
single attempt is made, with no retry. The raised error is modelled as a
record of the context it carries. -/

/-- An HTTP response: status code and raw body text. -/
structure HttpResponse where
  status : Nat
  text : String
deriving DecidableEq

/-- The context carried by the propagated request error. -/
structure RequestError where
  method : String
  url : String
  body : String
deriving DecidableEq

/-- One `logger.error("Enable Banking error %s %s: %s", method, url,
response.text)` record. -/
structure LogRecord where
  method : String
  url : String
  body : String
deriving DecidableEq

/-- `requests`' `raise_for_status` raises exactly for 4xx/5xx statuses. -/
def raise_for_status_raises (status : Nat) : Bool :=
  400 ≤ status && status < 600

/-- `enable_banking_service.py` lines 45-59: dispatch one request and
either return the response or log and raise; the second component is the
log output of the call. -/
def _request (base_url method path : String) (response : HttpResponse) :
    Except RequestError HttpResponse × List LogRecord :=
  if raise_for_status_raises response.status then
    (Except.error ⟨method, base_url ++ path, response.text⟩,
     [⟨method, base_url ++ path, response.text⟩])
  else
    (Except.ok response, [])

/-- The pagination loop over a fallible page oracle: any page error aborts
the whole aggregation and propagates unmodified (Python exception
propagation out of the `for` loop). -/
def fetchPagesE {α : Type}
    (get_transactions : Option String → Except RequestError (TransactionPage α)) :
    Nat → Option String → Except RequestError (List α × Nat)
  | 0, _ => .ok ([], 0)
  | fuel + 1, key =>
    match get_transactions key with
    | .error e => .error e
    | .ok data =>
      if pyTruthy data.continuation_key then
        match fetchPagesE get_transactions fuel data.continuation_key with
        | .error e => .error e
        | .ok rest => .ok (data.transactions ++ rest.1, rest.2 + 1)
      else .ok (data.transactions, 1)

/-- `fetch_all_transactions` over the fallible oracle, default budget 20. -/
def fetch_all_transactionsE {α : Type}
    (get_transactions : Option String → Except RequestError (TransactionPage α))
    (max_pages : Nat) : Except RequestError (List α × Nat) :=
  fetchPagesE get_transactions max_pages none

/-- `streamlit_app.py` lines 117-122: the flow layer invokes
`fetch_all_transactions` (default `max_pages`) with no surrounding handler;
whatever the client produces — result or error — is surfaced unchanged. -/
def flow_fetch_transactions {α : Type}
    (get_transactions : Option String → Except RequestError (TransactionPage α)) :
    Except RequestError (List α × Nat) :=
  fetch_all_transactionsE get_transactions 20

/-- A server whose first page succeeds (with a truthy continuation key) and
whose second request fails with `e`. -/
def secondPageFailsServer {α : Type} (firstPage : List α) (e : RequestError) :
    Option String → Except RequestError (TransactionPage α)
  | none => .ok ⟨firstPage, some "next"⟩
  | some _ => .error e

end Gestio

namespace Gestio

/-! ## Helper lemmas about decimal digit strings -/

/-- `Nat.digitChar` of a base-10 digit is a decimal digit character. -/
theorem digitChar_isDigit : ∀ d : Nat, d < 10 → (Nat.digitChar d).isDigit = true := by
  decide

/-- Every character `Nat.toDigitsCore 10` pushes onto a digit accumulator is
a digit. -/
theorem toDigitsCore_all_digits :
    ∀ (fuel n : Nat) (ds : List Char),
      (∀ c ∈ ds, c.isDigit = true) →
      ∀ c ∈ Nat.toDigitsCore 10 fuel n ds, c.isDigit = true := by
  intro fuel
  induction fuel with
  | zero =>
    intro n ds hds c hc
    exact hds c (by simpa [Nat.toDigitsCore] using hc)
  | succ f ih =>
    intro n ds hds c hc
    have hcons : ∀ x ∈ Nat.digitChar (n % 10) :: ds, x.isDigit = true := by
      intro x hx
      rcases List.mem_cons.mp hx with h | h
      · exact h ▸ digitChar_isDigit (n % 10) (Nat.mod_lt _ (by decide))
      · exact hds x h
    simp only [Nat.toDigitsCore] at hc
    by_cases h : n / 10 = 0
    · rw [if_pos h] at hc
      exact hcons c hc
    · rw [if_neg h] at hc
      exact ih (n / 10) _ hcons c hc

/-- Every character of `Nat.repr n` is a decimal digit. -/
theorem repr_all_digits (n : Nat) : ∀ c ∈ (Nat.repr n).data, c.isDigit = true := by
  intro c hc
  exact toDigitsCore_all_digits (n + 1) n [] (by simp) c hc

/-- Every character of `pad2 n` is a decimal digit. -/
theorem pad2_all_digits (n : Nat) : ∀ c ∈ (pad2 n).data, c.isDigit = true := by
  intro c hc
  unfold pad2 at hc
  split at hc
  · rw [String.data_append] at hc
    rcases List.mem_append.mp hc with h | h
    · have : c = '0' := by simpa using h
      subst this; decide
    · exact repr_all_digits n c h
  · exact repr_all_digits n c hc

/-- Every character of `pad4 n` is a decimal digit. -/
theorem pad4_all_digits (n : Nat) : ∀ c ∈ (pad4 n).data, c.isDigit = true := by
  intro c hc
  unfold pad4 at hc
  split at hc
  · rw [String.data_append] at hc
    rcases List.mem_append.mp hc with h | h
    · have : c = '0' := by simpa using h
      subst this; decide
    · exact repr_all_digits n c h
  · split at hc
    · rw [String.data_append] at hc
      rcases List.mem_append.mp hc with h | h
      · have : c = '0' := by
          simpa using h
        subst this; decide
      · exact repr_all_digits n c h
    · split at hc
      · rw [String.data_append] at hc
        rcases List.mem_append.mp hc with h | h
        · have : c = '0' := by simpa using h
          subst this; decide
        · exact repr_all_digits n c h
      · exact repr_all_digits n c hc

/-- Every character of a `pad2` block is an allowed RFC3339 character. -/
theorem pad2_all_rfc (n : Nat) : (pad2 n).data.all rfcCharOk = true :=
  List.all_eq_true.mpr fun c hc => by simp [rfcCharOk, pad2_all_digits n c hc]

/-- Every character of a `pad4` block is an allowed RFC3339 character. -/
theorem pad4_all_rfc (n : Nat) : (pad4 n).data.all rfcCharOk = true :=
  List.all_eq_true.mpr fun c hc => by simp [rfcCharOk, pad4_all_digits n c hc]

/-- Every character of an `isoCore` layout with `Z` appended is a digit or
one of `-`, `:`, `T`, `Z`. -/
theorem isoCore_append_Z_all_rfc (y mo da hh mi ss : Nat) :
    ((isoCore y mo da hh mi ss ++ "Z").data.all rfcCharOk) = true := by
  unfold isoCore
  simp only [String.data_append, List.all_append, Bool.and_eq_true]
  repeat' apply And.intro
  all_goals first
    | exact pad2_all_rfc _
    | exact pad4_all_rfc _
    | decide

/-- Every character of an `_rfc3339_utc` result is a digit or one of
`-`, `:`, `T`, `Z`. -/
theorem rfc3339_all_rfc (t : Nat) : (_rfc3339_utc t).data.all rfcCharOk = true :=
  isoCore_append_Z_all_rfc (civilFromDays (t / 1000000 / 86400)).1
    (civilFromDays (t / 1000000 / 86400)).2.1 (civilFromDays (t / 1000000 / 86400)).2.2
    (t / 1000000 / 3600 % 24) (t / 1000000 / 60 % 60) (t / 1000000 % 60)

/-- A character rejected by `rfcCharOk` never occurs in an `_rfc3339_utc`
result. -/
theorem rfc3339_not_mem {c : Char} (hbad : rfcCharOk c = false) (t : Nat) :
    c ∉ (_rfc3339_utc t).data := by
  intro hmem
  have := List.all_eq_true.mp (rfc3339_all_rfc t) c hmem
  rw [hbad] at this
  exact Bool.false_ne_true this

/-- Appending the literal `Z` makes it the last character. -/
theorem append_Z_last (s : String) : (s ++ "Z").data.getLast? = some 'Z' := by
  rw [String.data_append, show ("Z".data) = ['Z'] from rfl]
  exact List.getLast?_concat _

/-- Every `_rfc3339_utc` result ends with the literal character `Z`. -/
theorem rfc3339_last (t : Nat) : (_rfc3339_utc t).data.getLast? = some 'Z' :=
  append_Z_last (isoformatUtc (t / 1000000))

end Gestio

namespace Gestio

/-- C1: whenever the callback carries a fresh (truthy, not-last-processed)
code, the stored nonce and the incoming state are both present (truthy), and
they differ, the handler halts in the rejected state and passes no code to
`exchange_code`. -/
theorem state_mismatch_rejects (fs : FlowState) (c : String) (st : Option String)
    (exchange : String → String)
    (hc : ¬ c.isEmpty) (hnew : fs.last_code ≠ some c)
    (hnonce : pyTruthy fs.oauth_state) (hst : pyTruthy st)
    (hne : st ≠ fs.oauth_state) :
    (handle_callback fs (some c) st exchange).outcome = .rejected ∧
    (handle_callback fs (some c) st exchange).exchanged_codes = [] := by
  have hb : (st != fs.oauth_state) = true := by
    simpa [bne_iff_ne] using hne
  simp [handle_callback, hc, hnew, hnonce, hst, hb]

/-- C1 witness: stored nonce `"abc"`, incoming state `"xyz"`, fresh code
`"code1"`: rejected, no exchange. -/
theorem state_mismatch_rejects_witness :
    (handle_callback ⟨some "abc", none, none⟩ (some "code1") (some "xyz")
        (fun c => c)).outcome = .rejected ∧
    (handle_callback ⟨some "abc", none, none⟩ (some "code1") (some "xyz")
        (fun c => c)).exchanged_codes = [] :=
  state_mismatch_rejects ⟨some "abc", none, none⟩ "code1" (some "xyz")
    (fun c => c) (by decide) (by decide) (by decide) (by decide) (by decide)

/-- C2: with a matching state (incoming state equal to the stored nonce) and
a fresh truthy code, the handler exchanges the code exactly once; on a second
observation of the same callback (same code) it performs no further
exchange, so the two runs together call `exchange_code` exactly once. -/
theorem matching_state_exchanges_once (fs : FlowState) (c : String)
    (st : Option String) (exchange : String → String)
    (hc : ¬ c.isEmpty) (hnew : fs.last_code ≠ some c)
    (hmatch : st = fs.oauth_state) :
    (handle_callback fs (some c) st exchange).exchanged_codes = [c] ∧
    (handle_callback fs (some c) st exchange).outcome = .exchanged ∧
    (handle_callback (handle_callback fs (some c) st exchange).finalState
        (some c) st exchange).exchanged_codes = [] ∧
    (handle_callback (handle_callback fs (some c) st exchange).finalState
        (some c) st exchange).outcome = .duplicate := by
  have hb : (st != fs.oauth_state) = false := by
    simp [hmatch]
  refine ⟨?_, ?_, ?_, ?_⟩ <;>
    simp [handle_callback, hc, hnew, hb]

/-- C2 witness: stored nonce `"abc"`, incoming state `"abc"`, code `"code1"`
observed twice: one exchange on the first run, none on the second. -/
theorem matching_state_exchanges_once_witness :
    (handle_callback ⟨some "abc", none, none⟩ (some "code1") (some "abc")
        (fun c => c)).exchanged_codes = ["code1"] ∧
    (handle_callback ⟨some "abc", none, none⟩ (some "code1") (some "abc")
        (fun c => c)).outcome = .exchanged ∧
    (handle_callback
        (handle_callback ⟨some "abc", none, none⟩ (some "code1") (some "abc")
          (fun c => c)).finalState (some "code1") (some "abc")
        (fun c => c)).exchanged_codes = [] ∧
    (handle_callback
        (handle_callback ⟨some "abc", none, none⟩ (some "code1") (some "abc")
          (fun c => c)).finalState (some "code1") (some "abc")
        (fun c => c)).outcome = .duplicate :=
  matching_state_exchanges_once ⟨some "abc", none, none⟩ "code1" (some "abc")
    (fun c => c) (by decide) (by decide) (by decide)

/-- C10: on a fresh truthy code, if the stored nonce or the incoming state is
not truthy (absent or empty), the code is exchanged anyway with no state
validation; and conversely the rejected outcome implies both were truthy. -/
theorem missing_state_skips_validation (fs : FlowState) (c : String)
    (st : Option String) (exchange : String → String)
    (hc : ¬ c.isEmpty) (hnew : fs.last_code ≠ some c) :
    ((pyTruthy fs.oauth_state = false ∨ pyTruthy st = false) →
      (handle_callback fs (some c) st exchange).outcome = .exchanged ∧
      (handle_callback fs (some c) st exchange).exchanged_codes = [c]) ∧
    ((handle_callback fs (some c) st exchange).outcome = .rejected →
      pyTruthy fs.oauth_state = true ∧ pyTruthy st = true) := by
  constructor
  · rintro (h | h) <;> exact ⟨by simp [handle_callback, hc, hnew, h],
      by simp [handle_callback, hc, hnew, h]⟩
  · intro hrej
    by_cases h1 : pyTruthy fs.oauth_state
    · by_cases h2 : pyTruthy st
      · exact ⟨h1, h2⟩
      · simp [handle_callback, hc, hnew, h2] at hrej
    · simp [handle_callback, hc, hnew, h1] at hrej

/-- C10 witness: no nonce stored (`oauth_state = none`), incoming state
`"xyz"`, fresh code `"code1"`: the code is exchanged with no validation. -/
theorem missing_state_skips_validation_witness :
    (handle_callback ⟨none, none, none⟩ (some "code1") (some "xyz")
        (fun c => c)).outcome = .exchanged ∧
    (handle_callback ⟨none, none, none⟩ (some "code1") (some "xyz")
        (fun c => c)).exchanged_codes = ["code1"] :=
  (missing_state_skips_validation ⟨none, none, none⟩ "code1" (some "xyz")
    (fun c => c) (by decide) (by decide)).1 (Or.inl (by decide))

/-- C3: against a server returning 3 pages of 2 items each (no continuation
key on the third), `fetch_all_transactions` with the default budget of 20
pages returns the 6 items in page order and performs exactly 3 page
requests, for every account id. -/
theorem three_pages_six_items (account_id : String) :
    fetch_all_transactions (fun _ => threePageServer) account_id 20 =
      (["t1", "t2", "t3", "t4", "t5", "t6"], 3) := rfl

/-- C5 counterexample: under the fixed clock 2026-01-01T00:00:00Z, the
default grant synthesized by `start_auth` does NOT have
`valid_until = "2026-03-31T00:00:00Z"`: 90 days after that clock is
2026-04-01 (31 remaining January days + 28 + 31 = 90). -/
theorem default_valid_until_not_march31 :
    (start_auth "MockASPSP" "FR" "http://localhost:8501/" none "personal"
        none none fixedClock2026).access.valid_until ≠ "2026-03-31T00:00:00Z" := by
  decide

/-- C5 (amended): under the fixed clock 2026-01-01T00:00:00Z, the default
grant's `valid_until` is `_rfc3339_utc` of the clock plus 90 days, which is
the string `"2026-04-01T00:00:00Z"`. -/
theorem default_valid_until_april1 :
    (start_auth "MockASPSP" "FR" "http://localhost:8501/" none "personal"
        none none fixedClock2026).access.valid_until =
      _rfc3339_utc (fixedClock2026 + 90 * 86400 * 1000000) ∧
    (start_auth "MockASPSP" "FR" "http://localhost:8501/" none "personal"
        none none fixedClock2026).access.valid_until = "2026-04-01T00:00:00Z" :=
  ⟨rfl, by decide⟩

/-- C6: whenever `start_auth` is called with the access grant omitted, the
payload's access object has `balances = true`, `transactions = true`, and a
`valid_until` equal to `_rfc3339_utc (now + 90 days)`; that string has no
`.` (no fractional seconds), no `+` (so no `+00:00` offset), and ends in a
literal `Z`. -/
theorem default_access_grant_format (aspsp country redirect psu : String)
    (auth_method st : Option String) (now : Nat) :
    (start_auth aspsp country redirect none psu auth_method st now).access.balances = true ∧
    (start_auth aspsp country redirect none psu auth_method st now).access.transactions = true ∧
    (start_auth aspsp country redirect none psu auth_method st now).access.valid_until =
      _rfc3339_utc (now + 90 * 86400 * 1000000) ∧
    '.' ∉ (_rfc3339_utc (now + 90 * 86400 * 1000000)).data ∧
    '+' ∉ (_rfc3339_utc (now + 90 * 86400 * 1000000)).data ∧
    (_rfc3339_utc (now + 90 * 86400 * 1000000)).data.getLast? = some 'Z' :=
  ⟨rfl, rfl, rfl, rfc3339_not_mem (by decide) _, rfc3339_not_mem (by decide) _,
    rfc3339_last _⟩

/-- C7: for every application id, private key and call time, the minted
token has issuer `enablebanking.com`, audience `api.enablebanking.com`,
`iat` equal to the call time, `exp = iat + 3600` (so `iat < exp` and
`exp - iat = 3600`), an RS256 signature under the held key, and a header
`kid` equal to the application id; and the `Authorization` header built for
a call at time `now` carries exactly the token minted at `now` (a fresh
token per call, none cached). -/
theorem jwt_claims (application_id private_key_pem : String) (now : Nat) :
    (_generate_jwt application_id private_key_pem now).payload.iss = "enablebanking.com" ∧
    (_generate_jwt application_id private_key_pem now).payload.aud = "api.enablebanking.com" ∧
    (_generate_jwt application_id private_key_pem now).payload.iat = now ∧
    (_generate_jwt application_id private_key_pem now).payload.exp = now + 3600 ∧
    (_generate_jwt application_id private_key_pem now).header.kid = application_id ∧
    (_generate_jwt application_id private_key_pem now).header.typ = "JWT" ∧
    (_generate_jwt application_id private_key_pem now).algorithm = "RS256" ∧
    (_generate_jwt application_id private_key_pem now).signing_key = private_key_pem ∧
    (_generate_jwt application_id private_key_pem now).payload.iat <
      (_generate_jwt application_id private_key_pem now).payload.exp ∧
    (_generate_jwt application_id private_key_pem now).payload.exp -
      (_generate_jwt application_id private_key_pem now).payload.iat = 3600 ∧
    (_headers application_id private_key_pem now).lookup "Authorization" =
      some (.bearer (_generate_jwt application_id private_key_pem now)) := by
  refine ⟨rfl, rfl, rfl, rfl, rfl, rfl, rfl, rfl, ?_, ?_, rfl⟩
  · show now < now + 3600
    omega
  · show now + 3600 - now = 3600
    omega

/-- C8: for every account id, the single-page request built with no optional
filters carries an empty parameter map — in particular none of `date_from`,
`date_to`, `continuation_key` is present (not even with an empty value). -/
theorem omitted_filters_absent (account_id : String) :
    (get_transactions_request account_id none none none).2 = [] ∧
    (get_transactions_request account_id none none none).2.lookup "date_from" = none ∧
    (get_transactions_request account_id none none none).2.lookup "date_to" = none ∧
    (get_transactions_request account_id none none none).2.lookup "continuation_key" = none :=
  ⟨rfl, rfl, rfl, rfl⟩

/-- C9 counterexample: a 304 response is not 2xx, yet `_request` returns it
as a success, with no log and no error raised — `raise_for_status` only
raises for 4xx/5xx statuses. -/
theorem non_2xx_not_always_raised :
    ¬ (200 ≤ 304 ∧ 304 < 300) ∧
    _request "https://api.enablebanking.com" "GET" "/aspsps"
        ⟨304, "not modified"⟩ =
      (Except.ok ⟨304, "not modified"⟩, []) :=
  ⟨by decide, rfl⟩

/-- C9 (amended): every 4xx/5xx response makes `_request` log the method,
URL and raw body and raise a `RequestError` carrying exactly that context,
with no retry; the error aborts `fetch_all_transactions` mid-aggregation and
propagates unmodified; and the flow layer returns the client's result — ok
or error — unchanged. -/
theorem request_error_propagation :
    (∀ (base_url method path : String) (r : HttpResponse),
      400 ≤ r.status → r.status < 600 →
      _request base_url method path r =
        (Except.error ⟨method, base_url ++ path, r.text⟩,
         [⟨method, base_url ++ path, r.text⟩])) ∧
    (∀ (α : Type) (firstPage : List α) (e : RequestError),
      fetch_all_transactionsE (secondPageFailsServer firstPage e) 20 =
        Except.error e) ∧
    (∀ (α : Type)
        (gt : Option String → Except RequestError (TransactionPage α)),
      flow_fetch_transactions gt = fetch_all_transactionsE gt 20) := by
  refine ⟨?_, ?_, ?_⟩
  · intro base_url method path r h1 h2
    have hb : raise_for_status_raises r.status = true := by
      simp only [raise_for_status_raises, Bool.and_eq_true, decide_eq_true_eq]
      omega
    simp [_request, hb]
  · intro α firstPage e
    rfl
  · intro α gt
    rfl

/-- C9 witness: a concrete 500 response on `GET /aspsps` yields the logged
context and the same context in the raised error. -/
theorem request_error_propagation_witness :
    _request "https://api.enablebanking.com" "GET" "/aspsps" ⟨500, "boom"⟩ =
      (Except.error ⟨"GET", "https://api.enablebanking.com/aspsps", "boom"⟩,
       [⟨"GET", "https://api.enablebanking.com/aspsps", "boom"⟩]) :=
  request_error_propagation.1 "https://api.enablebanking.com" "GET" "/aspsps"
    ⟨500, "boom"⟩ (by decide) (by decide)

/-- C4: the number of page requests never exceeds `max_pages`, for every
server and account id; and with `max_pages = 2` against a server that always
returns a continuation key, exactly the items of the first two pages are
returned, in exactly 2 requests. -/
theorem pagination_bounded :
    (∀ (α : Type) (gt : String → Option String → TransactionPage α)
        (account_id : String) (max_pages : Nat),
      (fetch_all_transactions gt account_id max_pages).2 ≤ max_pages) ∧
    fetch_all_transactions (fun _ => alwaysContinuingServer) "acc" 2 =
      (["start", "start+"], 2) := by
  refine ⟨?_, rfl⟩
  intro α gt account_id max_pages
  exact fetchPages_count_le (gt account_id) max_pages none

end Gestio
